import Mathlib

/-!
# ofxParameterTwister — shallow embedding

A shallow embedding of the MIDI-Fighter-Twister binding layer
(`ofxParameterTwister.cpp`): the CC message codec, the per-slot `Encoder`
hardware state, the parameter-binding operations of
`ofxParameterTwisterImpl`, and the inbound routing loop `update()`.

Conventions of the embedding:
* machine bytes (`uint8_t`) and words (`uint16_t`) are `Nat`, with the
  masks (`&&& 0x7F`, `>>> 4`, …) written exactly where the C++ writes them;
* an outbound MIDI frame (`std::vector<unsigned char>` of three bytes,
  handed to `RtMidiOut::sendMessage`) is a `List Nat`; operations return
  the list of frames they emit, in emission order;
* `mMidiOut != nullptr` (a transport is attached) is the Boolean field
  `midiOut`;
* the `std::function` handlers (`updateRotaryParam`, `updateSwitchParam`)
  installed by `setParam` all compute the same integer decode before
  writing to the (external, floating-point) parameter; the embedding
  keeps a Boolean for "handler installed" and records each handler
  invocation as an `Event` carrying that integer decode;
* the `ofEventListener` subscriptions (`mELRotaryParamChange`,
  `mELSwitchParamChange`) are Booleans: subscribed or not;
* the initial hardware value computed by `ofMap` over the parameter's
  floating-point range is abstracted as a `Nat` argument of the
  `setParam` models — it is emitted on the wire but never read back;
* an out-of-bounds access into the `std::array<Encoder, 16>` (undefined
  behavior in C++) is modelled as `none` in `Option`.
-/

/-- `MidiCCMessage` from the source: three raw bytes of an inbound frame. -/
structure MidiCCMessage where
  command_channel : Nat := 0xB0
  controller : Nat := 0x00
  value : Nat := 0x00
  deriving DecidableEq, Repr

/-- `MidiCCMessage::getCommand`: the most significant nibble. -/
def MidiCCMessage.getCommand (m : MidiCCMessage) : Nat :=
  m.command_channel >>> 4

/-- `MidiCCMessage.getChannel`: the least significant nibble. -/
def MidiCCMessage.getChannel (m : MidiCCMessage) : Nat :=
  m.command_channel &&& 0x0F

/-- One encoder slot's state (`struct Encoder`), with the transport and
the handler/subscription fields reduced as described in the header. -/
structure Encoder where
  /-- `mMidiOut != nullptr`: a transport is attached. -/
  midiOut : Bool := false
  /-- position on the controller, row-major (`pos`). -/
  pos : Nat := 0
  rotaryEnabled : Bool := false
  switchEnabled : Bool := false
  /-- `updateRotaryParam` holds a callable target. -/
  hasRotaryHandler : Bool := false
  /-- `updateSwitchParam` holds a callable target. -/
  hasSwitchHandler : Bool := false
  /-- `mELRotaryParamChange` is subscribed to a parameter. -/
  rotarySubscribed : Bool := false
  /-- `mELSwitchParamChange` is subscribed to a parameter. -/
  switchSubscribed : Bool := false
  deriving DecidableEq, Repr

instance : Inhabited Encoder := ⟨{}⟩

/-- An outbound 3-byte MIDI frame. -/
abbrev Frame := List Nat

/-- `Encoder::sendToSwitch`: emit `[0xB1, pos, v]` when a transport is
attached, nothing otherwise. -/
def Encoder.sendToSwitch (e : Encoder) (v : Nat) : List Frame :=
  if e.midiOut then [[0xB1, e.pos, v]] else []

/-- `Encoder::sendToRotary`: emit the high-res LSB prefix frame
`[0xB0, 0x58, lsb]` and then the MSB frame `[0xB0, pos, msb]`, when a
transport is attached; nothing otherwise. -/
def Encoder.sendToRotary (e : Encoder) (msb lsb : Nat) : List Frame :=
  if e.midiOut then [[0xB0, 0x58, lsb], [0xB0, e.pos, msb]] else []

/-- `Encoder::setEncoderPhenotype`: emit `[0xB4, pos, phenotype]` when a
transport is attached. -/
def Encoder.setEncoderPhenotype (e : Encoder) (phenotype : Nat) : List Frame :=
  if e.midiOut then [[0xB4, e.pos, phenotype]] else []

/-- `Encoder::setRotaryState(enabled_, force_)`: no-op when the flag
already has the requested value and the call is not forced; otherwise
send phenotype 0 when enabling, phenotype 2 when disabling while the
switch is also disabled, and store the flag. -/
def Encoder.setRotaryState (e : Encoder) (enabled force : Bool) :
    Encoder × List Frame :=
  if e.rotaryEnabled = enabled ∧ force = false then (e, [])
  else
    let frames :=
      if enabled then e.setEncoderPhenotype 0
      else if e.switchEnabled = false then e.setEncoderPhenotype 2
      else []
    ({ e with rotaryEnabled := enabled }, frames)

/-- `Encoder::setSwitchState(enabled_, force_)`: symmetric to
`setRotaryState`, phenotype 1 when enabling. -/
def Encoder.setSwitchState (e : Encoder) (enabled force : Bool) :
    Encoder × List Frame :=
  if e.switchEnabled = enabled ∧ force = false then (e, [])
  else
    let frames :=
      if enabled then e.setEncoderPhenotype 1
      else if e.rotaryEnabled = false then e.setEncoderPhenotype 2
      else []
    ({ e with switchEnabled := enabled }, frames)

/-- `Encoder::setRotaryValue(v_)`: error no-op when the rotary is
disabled; otherwise split `v` into `msb = (v >> 7) & 0x7F` and
`lsb = v & 0x7F` and send both via `sendToRotary`. -/
def Encoder.setRotaryValue (e : Encoder) (v : Nat) : List Frame :=
  if e.rotaryEnabled = false then []
  else e.sendToRotary ((v >>> 7) &&& 0x7F) (v &&& 0x7F)

/-- `Encoder::setSwitchValue(v_)`: error no-op when the switch is
disabled; otherwise send only the MSB `(v >> 7) & 0x7F` via
`sendToSwitch`. -/
def Encoder.setSwitchValue (e : Encoder) (v : Nat) : List Frame :=
  if e.switchEnabled = false then []
  else e.sendToSwitch ((v >>> 7) &&& 0x7F)

/-- `Encoder::setHueRGB(h_)`: emit `[0xB1, pos, val]` when a transport is
attached. `val` is `roundf(ofMap(h_, 0, 1, 1, 126, true))`, a pure
floating-point computation abstracted here as the argument `val`. -/
def Encoder.setHueRGB (e : Encoder) (val : Nat) : List Frame :=
  if e.midiOut then [[0xB1, e.pos, val]] else []

/-- `Encoder::setBrightnessRotary(b_)`: emit `[0xB2, pos, val]` when a
transport is attached; `val` abstracts `round(ofMap(b_, 0, 1, 65, 95, true))`. -/
def Encoder.setBrightnessRotary (e : Encoder) (val : Nat) : List Frame :=
  if e.midiOut then [[0xB2, e.pos, val]] else []

/-- `Encoder::setBrightnessRGB(b_)`: emit `[0xB2, pos, val]` when a
transport is attached; `val` abstracts `round(ofMap(b_, 0, 1, 17, 47, true))`. -/
def Encoder.setBrightnessRGB (e : Encoder) (val : Nat) : List Frame :=
  if e.midiOut then [[0xB2, e.pos, val]] else []

/-- `Encoder::setAnimation(v_)`: emit `[0xB2, pos, v]` when a transport is
attached. -/
def Encoder.setAnimation (e : Encoder) (v : Nat) : List Frame :=
  if e.midiOut then [[0xB2, e.pos, v]] else []

/-- The 14-bit reconstruction performed by every rotary hardware-message
handler installed by `setParam` (float and int):
`highRezVal = ((msb & 0x7F) << 7) | (lsb & 0x7F)`. -/
def rotaryReconstruct (msb lsb : Nat) : Nat :=
  ((msb &&& 0x7F) <<< 7) ||| (lsb &&& 0x7F)

/-- The Boolean decode performed by the switch hardware-message handler
installed by `setParam(bool)`: `(msb > 63) ? true : false`. -/
def switchDecode (msb : Nat) : Bool :=
  if msb > 63 then true else false

/-! ## `ofxParameterTwisterImpl`: bindings and bulk assignment

`setParam(Encoder&, ofParameter<T>&)` for `T = float, int` enables the
rotary, pushes the parameter's current value (rescaled by `ofMap` —
abstracted as `v0`), installs the rotary hardware-message handler and
replaces the rotary change subscription.  For `T = bool` the switch side
is used and the pushed value is `0x3FFF` or `0`.  None of the three
touches the opposite side's fields. -/

/-- `ofxParameterTwisterImpl::setParam(Encoder&, ofParameter<float>&)`.
`v0` abstracts `ofMap(param, min, max, 0, 0x3FFF, true)`. -/
def setParamFloatE (e : Encoder) (v0 : Nat) : Encoder × List Frame :=
  let r1 := e.setRotaryState true false
  let f2 := r1.1.setRotaryValue v0
  ({ r1.1 with hasRotaryHandler := true, rotarySubscribed := true },
   r1.2 ++ f2)

/-- `ofxParameterTwisterImpl::setParam(Encoder&, ofParameter<int>&)`:
same shape as the float overload. -/
def setParamIntE (e : Encoder) (v0 : Nat) : Encoder × List Frame :=
  let r1 := e.setRotaryState true false
  let f2 := r1.1.setRotaryValue v0
  ({ r1.1 with hasRotaryHandler := true, rotarySubscribed := true },
   r1.2 ++ f2)

/-- `ofxParameterTwisterImpl::setParam(Encoder&, ofParameter<bool>&)`:
enable the switch, push `0x3FFF` or `0`, install the switch handler and
subscription. -/
def setParamBoolE (e : Encoder) (b : Bool) : Encoder × List Frame :=
  let r1 := e.setSwitchState true false
  let f2 := r1.1.setSwitchValue (if b then 0x3FFF else 0)
  ({ r1.1 with hasSwitchHandler := true, switchSubscribed := true },
   r1.2 ++ f2)

/-- `ofxParameterTwisterImpl::clearParam(Encoder&, bool force_)`:
disable the rotary (honouring `force`), unsubscribe the rotary listener,
then the same for the switch.  The `std::function` handlers are not
reset. -/
def clearParamE (e : Encoder) (force : Bool) : Encoder × List Frame :=
  let r1 := e.setRotaryState false force
  let e1 := { r1.1 with rotarySubscribed := false }
  let r2 := e1.setSwitchState false force
  ({ r2.1 with switchSubscribed := false }, r1.2 ++ r2.2)

/-- The runtime kind of one entry of the `ofParameterGroup` handed to
`setParams`, as discriminated by the `dynamic_pointer_cast` chain.  The
payload of `float`/`int` abstracts the `ofMap`-scaled initial hardware
value; `bool` carries the parameter's current truth value; `other` is a
parameter of any unmatched type. -/
inductive PKind where
  | float (v0 : Nat)
  | int (v0 : Nat)
  | bool (b : Bool)
  | other
  deriving DecidableEq, Repr

/-- One iteration of the `setParams` loop body for encoder `e`:
`some p` when the group iterator still yields a parameter, `none` when
the group is exhausted. -/
def setParamsSlot (e : Encoder) (p : Option PKind) : Encoder × List Frame :=
  match p with
  | some (.float v0) => setParamFloatE e v0
  | some (.int v0) => setParamIntE e v0
  | some (.bool b) => setParamBoolE e b
  | some .other => clearParamE e false
  | none =>
      let r1 := e.setRotaryState false true
      let r2 := r1.1.setSwitchState false true
      (r2.1, r1.2 ++ r2.2)

/-- `ofxParameterTwisterImpl::setParams(group_)`: walk the encoders in
order, consuming one group entry per encoder while entries remain. -/
def setParamsEnc : List Encoder → List PKind → List Encoder × List Frame
  | [], _ => ([], [])
  | e :: es, [] =>
      let r := setParamsSlot e none
      let rest := setParamsEnc es []
      (r.1 :: rest.1, r.2 ++ rest.2)
  | e :: es, p :: ps =>
      let r := setParamsSlot e (some p)
      let rest := setParamsEnc es ps
      (r.1 :: rest.1, r.2 ++ rest.2)

/-! ## Controller state and the inbound routing loop -/

/-- The mutable state of `ofxParameterTwisterImpl` that the inbound path
touches: the encoder array (`std::array<Encoder, 16>`, kept as a list of
length 16) and the pending high-res low byte. -/
structure TwisterState where
  encoders : List Encoder
  /-- `mHighResVelLowByte`. -/
  mHighResVelLowByte : Nat := 0
  deriving DecidableEq, Repr

/-- A recorded invocation of one of the installed hardware-message
handlers: the integer decode each closure computes before writing the
externally owned parameter. -/
inductive Event where
  /-- `updateRotaryParam(msb, lsb)` ran on the encoder at `pos`,
  reconstructing `highRezVal`. -/
  | rotary (pos : Nat) (highRezVal : Nat)
  /-- `updateSwitchParam(v, 0)` ran on the encoder at `pos`, writing `b`
  to the bound bool parameter. -/
  | switchWrite (pos : Nat) (b : Bool)
  deriving DecidableEq, Repr

/-- One iteration of the drain loop in `ofxParameterTwisterImpl::update`
for a received message `m`.  Channel 0 is the rotary class: controller
`0x58` caches the low byte, an in-range controller dispatches to the
slot's rotary handler and resets the low byte, an out-of-range one falls
through both tests and leaves the state untouched.  Channel 1 is the
switch class: the source indexes `mEncoders[encoderID]` without a bounds
check, so a controller outside the array is an out-of-bounds access —
modelled as `none`. -/
def processMsg (s : TwisterState) (m : MidiCCMessage) :
    Option (TwisterState × List Event) :=
  if m.getCommand = 0xB then
    if m.getChannel = 0x0 then
      if m.controller = 0x58 then
        some ({ s with mHighResVelLowByte := m.value &&& 0x7F }, [])
      else if m.controller < s.encoders.length then
        let e := s.encoders.getD m.controller default
        let evs :=
          if e.rotaryEnabled then
            if e.hasRotaryHandler then
              [Event.rotary e.pos (rotaryReconstruct m.value s.mHighResVelLowByte)]
            else []
          else []
        some ({ s with mHighResVelLowByte := 0 }, evs)
      else
        some (s, [])
    else if m.getChannel = 0x1 then
      match s.encoders.get? m.controller with
      | none => none
      | some e =>
          some (s,
            if e.switchEnabled then
              if e.hasSwitchHandler then
                [Event.switchWrite e.pos (switchDecode m.value)]
              else []
            else [])
    else
      some (s, [])
  else
    some (s, [])

/-- `ofxParameterTwisterImpl::update()`: drain the queued messages in
FIFO order, threading the state and concatenating the handler events. -/
def update (s : TwisterState) : List MidiCCMessage →
    Option (TwisterState × List Event)
  | [] => some (s, [])
  | m :: ms => do
      let r ← processMsg s m
      let rest ← update r.1 ms
      pure (rest.1, r.2 ++ rest.2)

/-! ## LED and animation operations at the controller level

The `size_t idx_` overloads bounds-check the slot and forward to the
`Encoder&` overloads, which only emit a frame.  They are modelled as
functions on the whole `TwisterState` returning the (unchanged) state
together with the emitted frames, mirroring that the member functions
have the state in scope but never assign to it. -/

/-- `ofxParameterTwister::Animation`. -/
inductive Animation where
  | NONE
  | STROBE
  | PULSE
  | RAINBOW
  deriving DecidableEq, Repr

/-- The `switch` in `setAnimationRGB(Encoder&, …)`: `NONE → 0`,
`STROBE → 1 + rate`, `PULSE → 9 + rate`, `RAINBOW` and the default
case → 127. -/
def animationModeRGB (anim : Animation) (rate : Nat) : Nat :=
  match anim with
  | .NONE => 0
  | .STROBE => 1 + rate
  | .PULSE => 9 + rate
  | .RAINBOW => 127

/-- The `switch` in `setAnimationRotary(Encoder&, …)`: `NONE → 48`,
`STROBE → 49 + rate`, `PULSE` and the default case (which a `RAINBOW`
value would take, were it not filtered by the caller) → `57 + rate`. -/
def animationModeRotary (anim : Animation) (rate : Nat) : Nat :=
  match anim with
  | .NONE => 48
  | .STROBE => 49 + rate
  | .PULSE => 57 + rate
  | .RAINBOW => 57 + rate

/-- `ofxParameterTwisterImpl::setHueRGB(size_t, float)`: bounds-checked
forward to `Encoder::setHueRGB`.  `val` abstracts the hue byte computed
from the `float` argument. -/
def setHueRGBI (s : TwisterState) (idx : Nat) (val : Nat) :
    TwisterState × List Frame :=
  if idx < s.encoders.length then
    (s, (s.encoders.getD idx default).setHueRGB val)
  else (s, [])

/-- `ofxParameterTwisterImpl::setBrightnessRGB(size_t, float)`. -/
def setBrightnessRGBI (s : TwisterState) (idx : Nat) (val : Nat) :
    TwisterState × List Frame :=
  if idx < s.encoders.length then
    (s, (s.encoders.getD idx default).setBrightnessRGB val)
  else (s, [])

/-- `ofxParameterTwisterImpl::setBrightnessRotary(size_t, float)`. -/
def setBrightnessRotaryI (s : TwisterState) (idx : Nat) (val : Nat) :
    TwisterState × List Frame :=
  if idx < s.encoders.length then
    (s, (s.encoders.getD idx default).setBrightnessRotary val)
  else (s, [])

/-- `ofxParameterTwisterImpl::setAnimationRGB(size_t, Animation, uint8_t)`:
guarded by `idx < size ∧ rate < 8`, then the encoder emits the RGB
animation code. -/
def setAnimationRGBI (s : TwisterState) (idx : Nat) (anim : Animation)
    (rate : Nat) : TwisterState × List Frame :=
  if idx < s.encoders.length ∧ rate < 8 then
    (s, (s.encoders.getD idx default).setAnimation (animationModeRGB anim rate))
  else (s, [])

/-- `ofxParameterTwisterImpl::setAnimationRotary(size_t, Animation, uint8_t)`:
guarded by `idx < size ∧ rate < 8 ∧ anim ≠ RAINBOW`, then the encoder
emits the rotary animation code. -/
def setAnimationRotaryI (s : TwisterState) (idx : Nat) (anim : Animation)
    (rate : Nat) : TwisterState × List Frame :=
  if idx < s.encoders.length ∧ rate < 8 ∧ anim ≠ Animation.RAINBOW then
    (s, (s.encoders.getD idx default).setAnimation (animationModeRotary anim rate))
  else (s, [])

/-- A fresh bank of 16 encoders as `setup()` leaves it: `pos` assigned
row-major, the transport attached to each, everything else default. -/
def setupEncoders : List Encoder :=
  (List.range 16).map (fun i => { pos := i, midiOut := true })

/-! ## Claims -/

/-- **C3.** For every `v` in `[0, 16383]`, splitting `v` into
`msb = (v >> 7) & 0x7F` and `lsb = v & 0x7F` (as `setRotaryValue` does)
and reconstructing via `((msb & 0x7F) << 7) | (lsb & 0x7F)` (as the
inbound rotary handler does) yields exactly `v`. -/
theorem C3_highres_split_roundtrip (v : Nat) (h : v < 16384) :
    rotaryReconstruct ((v >>> 7) &&& 0x7F) (v &&& 0x7F) = v := by
  unfold rotaryReconstruct
  have e1 : ∀ x : Nat, x &&& 0x7F = x % 128 := fun x => by
    have h7 := Nat.and_pow_two_sub_one_eq_mod x 7
    norm_num at h7
    exact h7
  have e2 : v >>> 7 = v / 128 := by
    rw [Nat.shiftRight_eq_div_pow]
  simp only [e1, e2, Nat.shiftLeft_eq]
  have e3 : v / 128 % 128 % 128 * 2 ^ 7 ||| v % 128 % 128 =
      2 ^ 7 * (v / 128 % 128 % 128) + v % 128 % 128 := by
    rw [Nat.mul_comm, ← Nat.mul_add_lt_is_or (Nat.mod_lt _ (by norm_num)) _]
  rw [e3]
  omega

/-- Witness for C3 at `v = 16383`. -/
theorem C3_highres_split_roundtrip_witness :
    16383 < 16384 ∧
    rotaryReconstruct ((16383 >>> 7) &&& 0x7F) (16383 &&& 0x7F) = 16383 :=
  ⟨by norm_num, C3_highres_split_roundtrip 16383 (by norm_num)⟩

/-- **C1.** The claim says an inbound CC message with command `0xB`,
channel `0x1` and controller ≥ 16 is ignored, the slot index being
bounds-checked before any encoder access.  The source's switch branch
performs no bounds check: `size_t encoderID = m.controller;
auto &e = mEncoders[encoderID];` indexes the 16-element
`std::array` directly, an out-of-bounds access for controller 16 —
`none` in the model. -/
theorem C1_switch_branch_out_of_bounds :
    processMsg { encoders := setupEncoders, mHighResVelLowByte := 0 }
      { command_channel := 0xB1, controller := 16, value := 0 } = none := by
  decide

/-- **C2, counterexample.** A rotary-class CC whose controller is neither
`0x58` nor a valid slot index does not reset the pending low byte: after
the prefix `[0xB0, 0x58, 0x10]` followed by `[0xB0, 20, 0x40]` (controller
20 ≥ 16), `mHighResVelLowByte` is still `0x10`, not `0`. -/
theorem C2_lowbyte_stale_out_of_range :
    update { encoders := setupEncoders, mHighResVelLowByte := 0 }
      [{ command_channel := 0xB0, controller := 0x58, value := 0x10 },
       { command_channel := 0xB0, controller := 20, value := 0x40 }] =
      some ({ encoders := setupEncoders, mHighResVelLowByte := 0x10 }, []) ∧
    (0x10 : Nat) ≠ 0 := by
  constructor
  · decide
  · decide

/-- **C2, amended.** For every inbound CC message with command `0xB` and
channel `0x0` whose controller byte is not `0x58` **and is a valid slot
index (< 16, the encoder-array length)**, after `update()` processes the
message the pending high-res low byte equals `0`, regardless of whether a
`0x58` prefix preceded it and regardless of the value or the slot's
rotary-enabled flag.  (For controller bytes ≥ 16 the message is dropped
and the pending low byte is left unchanged.) -/
theorem C2_lowbyte_reset_in_range (s : TwisterState) (m : MidiCCMessage)
    (hcmd : m.getCommand = 0xB) (hch : m.getChannel = 0x0)
    (hc : m.controller ≠ 0x58) (hlt : m.controller < s.encoders.length) :
    (processMsg s m).map (fun r => r.1.mHighResVelLowByte) = some 0 := by
  simp [processMsg, hcmd, hch, hc, hlt]

/-- Witness for C2 (amended): slot-3 rotary CC on a fresh 16-encoder
bank with a stale pending low byte. -/
theorem C2_lowbyte_reset_in_range_witness :
    (({ command_channel := 0xB0, controller := 3, value := 0x40 } :
        MidiCCMessage).getCommand = 0xB) ∧
    (({ command_channel := 0xB0, controller := 3, value := 0x40 } :
        MidiCCMessage).getChannel = 0x0) ∧
    ((3 : Nat) ≠ 0x58) ∧
    (3 < ({ encoders := setupEncoders, mHighResVelLowByte := 0x7 } :
        TwisterState).encoders.length) ∧
    (processMsg { encoders := setupEncoders, mHighResVelLowByte := 0x7 }
        { command_channel := 0xB0, controller := 3, value := 0x40 }).map
      (fun r => r.1.mHighResVelLowByte) = some 0 :=
  ⟨by decide, by decide, by decide, by decide,
    C2_lowbyte_reset_in_range _ _ (by decide) (by decide) (by decide) (by decide)⟩

/-- **C4, counterexample.** In `setParams`, a group entry of unmatched
kind is cleared with `clearParam(e, false)`, not with the force flag
set: on a fresh transport-attached encoder whose flags already read
false, the bulk assignment emits no frame for the slot, whereas a forced
clear would emit two phenotype-2 frames. -/
theorem C4_other_clear_emits_nothing :
    (setParamsEnc [{ pos := 0, midiOut := true }] [PKind.other]).2 = [] ∧
    (clearParamE { pos := 0, midiOut := true } true).2 =
      [[0xB4, 0, 2], [0xB4, 0, 2]] ∧
    ([] : List Frame) ≠ [[0xB4, 0, 2], [0xB4, 0, 2]] := by
  refine ⟨by decide, by decide, by decide⟩

/-- **C4, amended.** In the bulk assignment `setParams(group)`, for every
slot `i` whose `i`-th parameter exists but is none of {Float, Int, Bool},
the slot is cleared with the force flag **false** (non-forced unbind):
the per-slot result is exactly `clearParam(encoder, false)`, so the
disable transitions are skipped when the encoder's rotary/switch flags
already read false.  (Only slots beyond the end of the group are
force-disabled.) -/
theorem C4_other_slot_cleared_unforced :
    ∀ (es : List Encoder) (g : List PKind) (i : Nat) (e : Encoder),
    es[i]? = some e → g[i]? = some PKind.other →
    (setParamsEnc es g).1[i]? = some (clearParamE e false).1 := by
  intro es
  induction es with
  | nil =>
      intro g i e he _
      simp at he
  | cons e0 es ih =>
      intro g i e he hg
      cases g with
      | nil => simp at hg
      | cons p ps =>
          cases i with
          | zero =>
              simp at he hg
              subst he hg
              simp [setParamsEnc, setParamsSlot]
          | succ n =>
              simp at he hg
              simpa [setParamsEnc] using ih ps n e he hg

/-- Witness for C4 (amended): a one-slot group holding an unmatched
parameter, over a one-encoder bank. -/
theorem C4_other_slot_cleared_unforced_witness :
    ([({ pos := 0, midiOut := true } : Encoder)][0]? =
      some { pos := 0, midiOut := true }) ∧
    ([PKind.other][0]? = some PKind.other) ∧
    (setParamsEnc [{ pos := 0, midiOut := true }] [PKind.other]).1[0]? =
      some (clearParamE { pos := 0, midiOut := true } false).1 :=
  ⟨by decide, by decide,
    C4_other_slot_cleared_unforced _ _ 0 _ (by decide) (by decide)⟩

/-- An encoder freshly bound to a bool parameter (switch class), as
`setParam(Encoder&, ofParameter<bool>&)` leaves it. -/
def boolBoundEncoder : Encoder :=
  (setParamBoolE { pos := 3, midiOut := true } true).1

/-- **C5, counterexample.** Binding a float parameter to a slot
previously bound to a bool parameter does **not** tear the switch
binding down: after `setParam(float)` on `boolBoundEncoder`, the switch
enabled flag and the switch change subscription are still set. -/
theorem C5_float_bind_keeps_switch_binding :
    (setParamFloatE boolBoundEncoder 0).1.switchEnabled = true ∧
    (setParamFloatE boolBoundEncoder 0).1.switchSubscribed = true ∧
    (setParamFloatE boolBoundEncoder 0).1.hasSwitchHandler = true := by
  refine ⟨by decide, by decide, by decide⟩

/-- **C5, amended.** Creating a new binding tears down only the previous
binding **of the same class**: `setParam(float)` installs the rotary
handler and replaces the rotary subscription while leaving the switch
enabled flag, handler and subscription exactly as they were, and
`setParam(bool)` symmetrically leaves the rotary fields untouched — so a
rotary and a switch binding can be active on the same encoder
simultaneously. -/
theorem C5_bind_replaces_same_class_only (e : Encoder) (v0 : Nat) (b : Bool) :
    ((setParamFloatE e v0).1.rotaryEnabled = true ∧
     (setParamFloatE e v0).1.hasRotaryHandler = true ∧
     (setParamFloatE e v0).1.rotarySubscribed = true) ∧
    ((setParamFloatE e v0).1.switchEnabled = e.switchEnabled ∧
     (setParamFloatE e v0).1.hasSwitchHandler = e.hasSwitchHandler ∧
     (setParamFloatE e v0).1.switchSubscribed = e.switchSubscribed) ∧
    ((setParamBoolE e b).1.switchEnabled = true ∧
     (setParamBoolE e b).1.hasSwitchHandler = true ∧
     (setParamBoolE e b).1.switchSubscribed = true) ∧
    ((setParamBoolE e b).1.rotaryEnabled = e.rotaryEnabled ∧
     (setParamBoolE e b).1.hasRotaryHandler = e.hasRotaryHandler ∧
     (setParamBoolE e b).1.rotarySubscribed = e.rotarySubscribed) := by
  unfold setParamFloatE setParamBoolE Encoder.setRotaryState Encoder.setSwitchState
  constructor
  · split <;> simp_all
  constructor
  · split <;> simp_all
  constructor
  · split <;> simp_all
  · split <;> simp_all

/-- A fresh 16-encoder bank in which slot 5 has been bound to a float
parameter (rotary-enabled, handler installed) and the pending low byte
is empty. -/
def scenarioState : TwisterState :=
  { encoders := (List.range 16).map (fun i =>
      if i = 5 then (setParamFloatE { pos := 5, midiOut := true } 0).1
      else { pos := i, midiOut := true }),
    mHighResVelLowByte := 0 }

/-- **C6.** Starting from an empty pending low byte with slot 5
rotary-enabled, feeding `update()` the queued frames `[0xB0,0x58,0x10]`
then `[0xB0,0x05,0x40]` produces exactly one invocation of slot 5's
rotary handler, with reconstructed value `(0x40 << 7) | 0x10`, and
leaves the state with the pending low byte reset — so that a subsequent
lone `[0xB0,0x05,0x00]` reconstructs to `0`. -/
theorem C6_routing_scenario :
    update scenarioState
      [{ command_channel := 0xB0, controller := 0x58, value := 0x10 },
       { command_channel := 0xB0, controller := 0x05, value := 0x40 }] =
      some (scenarioState, [Event.rotary 5 ((0x40 <<< 7) ||| 0x10)]) ∧
    scenarioState.mHighResVelLowByte = 0 ∧
    update scenarioState
      [{ command_channel := 0xB0, controller := 0x05, value := 0x00 }] =
      some (scenarioState, [Event.rotary 5 0]) := by
  refine ⟨by decide, by decide, by decide⟩

/-- **C7.** For every value `v`, with the rotary enabled and a transport
attached, `setRotaryValue(v)` emits exactly two 3-byte frames in this
order: first the LSB-prefix frame `[0xB0, 0x58, v & 0x7F]`, then the MSB
frame `[0xB0, pos, (v >> 7) & 0x7F]`. -/
theorem C7_setRotaryValue_prefix_first (e : Encoder) (v : Nat)
    (hrot : e.rotaryEnabled = true) (hout : e.midiOut = true) :
    e.setRotaryValue v =
      [[0xB0, 0x58, v &&& 0x7F], [0xB0, e.pos, (v >>> 7) &&& 0x7F]] := by
  simp [Encoder.setRotaryValue, Encoder.sendToRotary, hrot, hout]

/-- Witness for C7 at slot 5 and `v = 0x2010`. -/
theorem C7_setRotaryValue_prefix_first_witness :
    (({ pos := 5, midiOut := true, rotaryEnabled := true } :
        Encoder).rotaryEnabled = true) ∧
    (({ pos := 5, midiOut := true, rotaryEnabled := true } :
        Encoder).midiOut = true) ∧
    ({ pos := 5, midiOut := true, rotaryEnabled := true } :
        Encoder).setRotaryValue 0x2010 =
      [[0xB0, 0x58, 0x2010 &&& 0x7F], [0xB0, 5, (0x2010 >>> 7) &&& 0x7F]] :=
  ⟨by decide, by decide,
    C7_setRotaryValue_prefix_first _ 0x2010 (by decide) (by decide)⟩

/-- **C8.** For every rate in `0..7`, the animation request maps to its
wire code as: `NONE → 0` on RGB and `48` on rotary; `STROBE → 1 + rate`
on RGB and `49 + rate` on rotary; `PULSE → 9 + rate` on RGB and
`57 + rate` on rotary; `RAINBOW → 127` on RGB; and a RAINBOW request for
a rotary slot is rejected by the controller-level guard before reaching
the encoder — no frame is sent.  In particular `(STROBE, rate = 3)`
encodes to `4` on an RGB slot and `52` on a rotary slot. -/
theorem C8_animation_code_mapping (rate : Nat) (hrate : rate < 8) :
    animationModeRGB Animation.NONE rate = 0 ∧
    animationModeRGB Animation.STROBE rate = 1 + rate ∧
    animationModeRGB Animation.PULSE rate = 9 + rate ∧
    animationModeRGB Animation.RAINBOW rate = 127 ∧
    animationModeRotary Animation.NONE rate = 48 ∧
    animationModeRotary Animation.STROBE rate = 49 + rate ∧
    animationModeRotary Animation.PULSE rate = 57 + rate ∧
    (∀ (s : TwisterState) (idx : Nat),
      setAnimationRotaryI s idx Animation.RAINBOW rate = (s, [])) ∧
    animationModeRGB Animation.STROBE 3 = 4 ∧
    animationModeRotary Animation.STROBE 3 = 52 := by
  refine ⟨rfl, rfl, rfl, rfl, rfl, rfl, rfl, ?_, rfl, rfl⟩
  intro s idx
  simp [setAnimationRotaryI]

/-- Witness for C8 at `rate = 3`. -/
theorem C8_animation_code_mapping_witness :
    3 < 8 ∧
    (animationModeRGB Animation.NONE 3 = 0 ∧
     animationModeRGB Animation.STROBE 3 = 1 + 3 ∧
     animationModeRGB Animation.PULSE 3 = 9 + 3 ∧
     animationModeRGB Animation.RAINBOW 3 = 127 ∧
     animationModeRotary Animation.NONE 3 = 48 ∧
     animationModeRotary Animation.STROBE 3 = 49 + 3 ∧
     animationModeRotary Animation.PULSE 3 = 57 + 3 ∧
     (∀ (s : TwisterState) (idx : Nat),
       setAnimationRotaryI s idx Animation.RAINBOW 3 = (s, [])) ∧
     animationModeRGB Animation.STROBE 3 = 4 ∧
     animationModeRotary Animation.STROBE 3 = 52) :=
  ⟨by norm_num, C8_animation_code_mapping 3 (by norm_num)⟩

/-- **C9.** For every byte `b` received on the switch channel for a
bound bool parameter, the switch handler writes `true` to the parameter
if and only if `b > 63`; in particular byte 64 yields `true` and byte 63
yields `false`. -/
theorem C9_switch_threshold (s : TwisterState) (m : MidiCCMessage) (e : Encoder)
    (hcmd : m.getCommand = 0xB) (hch : m.getChannel = 0x1)
    (he : s.encoders[m.controller]? = some e)
    (hsw : e.switchEnabled = true) (hh : e.hasSwitchHandler = true) :
    processMsg s m = some (s, [Event.switchWrite e.pos (switchDecode m.value)]) ∧
    (switchDecode m.value = true ↔ m.value > 63) ∧
    switchDecode 64 = true ∧ switchDecode 63 = false := by
  refine ⟨?_, ?_, by decide, by decide⟩
  · simp [processMsg, hcmd, hch, he, hsw, hh]
  · simp [switchDecode]

/-- Witness for C9: a one-encoder bank with a bound switch, fed byte 64. -/
theorem C9_switch_threshold_witness :
    (({ command_channel := 0xB1, controller := 0, value := 64 } :
        MidiCCMessage).getCommand = 0xB) ∧
    (({ command_channel := 0xB1, controller := 0, value := 64 } :
        MidiCCMessage).getChannel = 0x1) ∧
    (({ encoders :=
          [{ pos := 0, midiOut := true, switchEnabled := true,
             hasSwitchHandler := true }],
        mHighResVelLowByte := 0 } : TwisterState).encoders[(0 : Nat)]? =
      some { pos := 0, midiOut := true, switchEnabled := true,
             hasSwitchHandler := true }) ∧
    processMsg
        { encoders :=
            [{ pos := 0, midiOut := true, switchEnabled := true,
               hasSwitchHandler := true }],
          mHighResVelLowByte := 0 }
        { command_channel := 0xB1, controller := 0, value := 64 } =
      some ({ encoders :=
                [{ pos := 0, midiOut := true, switchEnabled := true,
                   hasSwitchHandler := true }],
              mHighResVelLowByte := 0 },
            [Event.switchWrite 0 (switchDecode 64)]) :=
  ⟨by decide, by decide, by decide,
    (C9_switch_threshold
      { encoders :=
          [{ pos := 0, midiOut := true, switchEnabled := true,
             hasSwitchHandler := true }],
        mHighResVelLowByte := 0 }
      { command_channel := 0xB1, controller := 0, value := 64 }
      { pos := 0, midiOut := true, switchEnabled := true,
        hasSwitchHandler := true }
      (by decide) (by decide) (by decide) (by decide) (by decide)).1⟩

/-- **C10.** For every slot index and every argument value, the LED
operations `setHueRGB`, `setBrightnessRGB`, `setBrightnessRotary`,
`setAnimationRGB` and `setAnimationRotary` leave the whole controller
state — every encoder's flags, handlers and subscriptions, and the
pending high-res low byte — unchanged, and emit at most one outbound
frame (none when no transport is attached or a guard fails). -/
theorem C10_led_ops_pure_emission (s : TwisterState) (idx val rate : Nat)
    (anim : Animation) :
    (setHueRGBI s idx val).1 = s ∧ (setHueRGBI s idx val).2.length ≤ 1 ∧
    (setBrightnessRGBI s idx val).1 = s ∧
    (setBrightnessRGBI s idx val).2.length ≤ 1 ∧
    (setBrightnessRotaryI s idx val).1 = s ∧
    (setBrightnessRotaryI s idx val).2.length ≤ 1 ∧
    (setAnimationRGBI s idx anim rate).1 = s ∧
    (setAnimationRGBI s idx anim rate).2.length ≤ 1 ∧
    (setAnimationRotaryI s idx anim rate).1 = s ∧
    (setAnimationRotaryI s idx anim rate).2.length ≤ 1 := by
  unfold setHueRGBI setBrightnessRGBI setBrightnessRotaryI
    setAnimationRGBI setAnimationRotaryI
  unfold Encoder.setHueRGB Encoder.setBrightnessRGB
    Encoder.setBrightnessRotary Encoder.setAnimation
  refine ⟨?_, ?_, ?_, ?_, ?_, ?_, ?_, ?_, ?_, ?_⟩ <;>
    · split <;> simp <;> split <;> simp
